import Mathlib

/-!
Verification of the brainscan-insight-navigator dashboard core.

The definitions below are shallow embeddings of the TypeScript source:
* `classifyFile` / `detectScanTypes` embed `detectScanTypes` in
  `src/components/dashboard/ProcessingStatus.tsx` (CaseUpload variant,
  lines 443-462): an else-if chain of case-insensitive substring tests
  on each filename, writing the original filename into a per-label slot.
* `validateCaseId` / `handleUpload` embed `validateCaseId` (lines 480-489)
  and the validation phase of `handleUpload` (lines 491-530); `performUpload`
  embeds the post-validation upload phase (lines 532-577).
* `enrichCaseT` / `reconcileT` / `fetchCases` embed the `fetchCases`
  reconciliation in the CaseHistory variant (unnamed source, lines 108-147):
  the list endpoint response, per-case detail fetches for `done` summaries,
  and the surrounding state updates (cases, filteredCases, isLoading, toast).

Network interactions are embedded by passing each fetch's outcome as an
`Except Unit _` argument (`Except.error` = network failure or unparsable
JSON body); `enrichCaseT` additionally returns the list of case ids for
which a detail fetch was issued, so that "which cases get a detail fetch"
is itself a provable statement.
-/

/-- JS `text.includes(pat)` on exploded strings: `pat` occurs as a
contiguous substring of `text`. -/
def containsSub : List Char → List Char → Bool
  | [], pat => pat.isEmpty
  | c :: rest, pat => pat.isPrefixOf (c :: rest) || containsSub rest pat

/-- JS `s.toLowerCase()` as a character list (the source only ever feeds
the lowered string to substring tests). -/
def lowerChars (s : String) : List Char := s.toList.map Char.toLower

/-- JS `filename.includes(pat)` where `filename` is already lowercased. -/
def includes (filename : List Char) (pat : String) : Bool :=
  containsSub filename pat.toList

/-- The four modality labels used by the upload component
(`requiredScans = ['T1','T2']`, `optionalScans = ['T1CE','FLAIR']`). -/
inductive ScanLabel where
  | T1
  | T2
  | T1CE
  | FLAIR
deriving DecidableEq, Repr

/-- Predicate of the first branch of `detectScanTypes`:
`filename.includes('t1') && !filename.includes('ce') && !filename.includes('t10')`. -/
def t1Rule (filename : List Char) : Bool :=
  includes filename "t1" && !(includes filename "ce") && !(includes filename "t10")

/-- Predicate of the second branch:
`filename.includes('t2') && !filename.includes('t2*') && !filename.includes('t20')`. -/
def t2Rule (filename : List Char) : Bool :=
  includes filename "t2" && !(includes filename "t2*") && !(includes filename "t20")

/-- Predicate of the third branch:
`filename.includes('t1ce') || filename.includes('t1_ce') || filename.includes('t1-ce')`. -/
def t1ceRule (filename : List Char) : Bool :=
  includes filename "t1ce" || includes filename "t1_ce" || includes filename "t1-ce"

/-- Predicate of the fourth branch: `filename.includes('flair')`. -/
def flairRule (filename : List Char) : Bool :=
  includes filename "flair"

/-- The label a single filename is classified to by the else-if chain of
`detectScanTypes` (ProcessingStatus.tsx lines 447-458), in the source's
branch order: T1, then T2, then T1CE, then FLAIR; `none` when no branch
matches. -/
def classifyFile (name : String) : Option ScanLabel :=
  let filename := lowerChars name
  if t1Rule filename then some ScanLabel.T1
  else if t2Rule filename then some ScanLabel.T2
  else if t1ceRule filename then some ScanLabel.T1CE
  else if flairRule filename then some ScanLabel.FLAIR
  else none

/-- First-match evaluation of an ordered rule list (the spec's view of the
classifier as an explicit ordered list of predicate/label pairs). -/
def firstMatch : List (ScanLabel × (List Char → Bool)) → List Char → Option ScanLabel
  | [], _ => none
  | (l, p) :: rest, s => if p s then some l else firstMatch rest s

/-- The rule order actually present in the source's else-if chain. -/
def codeRules : List (ScanLabel × (List Char → Bool)) :=
  [(ScanLabel.T1, t1Rule), (ScanLabel.T2, t2Rule),
   (ScanLabel.T1CE, t1ceRule), (ScanLabel.FLAIR, flairRule)]

/-- The precedence order asserted by the spec (T1CE first, then T1, T2,
FLAIR), for comparison against the code's order. -/
def claimedRules : List (ScanLabel × (List Char → Bool)) :=
  [(ScanLabel.T1CE, t1ceRule), (ScanLabel.T1, t1Rule),
   (ScanLabel.T2, t2Rule), (ScanLabel.FLAIR, flairRule)]

/-- The `detected` object built by `detectScanTypes`: at most one original
filename per label. -/
structure Detected where
  t1 : Option String
  t2 : Option String
  t1ce : Option String
  flair : Option String
deriving DecidableEq, Repr

/-- Field lookup `detectedScans[label]`. -/
def getScan (d : Detected) : ScanLabel → Option String
  | ScanLabel.T1 => d.t1
  | ScanLabel.T2 => d.t2
  | ScanLabel.T1CE => d.t1ce
  | ScanLabel.FLAIR => d.flair

/-- One iteration of the `forEach` body of `detectScanTypes`: classify the
filename and overwrite that label's slot with the original (non-lowered)
name; an unclassified filename leaves the object untouched. -/
def detectStep (d : Detected) (file : String) : Detected :=
  match classifyFile file with
  | some ScanLabel.T1 => { d with t1 := some file }
  | some ScanLabel.T2 => { d with t2 := some file }
  | some ScanLabel.T1CE => { d with t1ce := some file }
  | some ScanLabel.FLAIR => { d with flair := some file }
  | none => d

/-- `detectScanTypes(fileList)`: fold the classification step over the
files in order, starting from the empty object. -/
def detectScanTypes (files : List String) : Detected :=
  files.foldl detectStep ⟨none, none, none, none⟩

/-- Required labels: `const requiredScans = ['T1', 'T2']`. -/
def requiredScans : List ScanLabel := [ScanLabel.T1, ScanLabel.T2]

/-- JS emptiness test `!caseId.trim()`: the trimmed string is empty exactly
when every character of the string is whitespace. -/
def isBlank (s : String) : Bool := s.toList.all Char.isWhitespace

/-- `validateCaseId` (ProcessingStatus.tsx lines 480-489): the argument is
the outcome of `fetch('/check_case_id/..').json()` — `Except.ok exists`
carries the backend's `data.exists` flag, `Except.error` is a network
failure or unparsable body, which the `catch` turns into `return true`
(treat the id as available). -/
def validateCaseId (resp : Except Unit Bool) : Bool :=
  match resp with
  | Except.ok exists_ => !exists_
  | Except.error _ => true

/-- The observable outcome of the validation phase of `handleUpload`: which
destructive toast fires (with the named missing scans for that category),
or control reaching the upload request. -/
inductive UploadOutcome where
  | emptyId
  | noFiles
  | duplicateId
  | missingScans (missing : List ScanLabel)
  | proceed
deriving DecidableEq, Repr

/-- Validation phase of `handleUpload` (ProcessingStatus.tsx lines 491-530),
with the early returns in source order: blank case id, then empty file
selection, then the uniqueness check (its network outcome passed as
`checkResp`), then the required-scan check on the detected assignment. -/
def handleUpload (caseId : String) (files : List String) (detected : Detected)
    (checkResp : Except Unit Bool) : UploadOutcome :=
  if isBlank caseId then UploadOutcome.emptyId
  else if files.isEmpty then UploadOutcome.noFiles
  else if !(validateCaseId checkResp) then UploadOutcome.duplicateId
  else
    let missingRequired := requiredScans.filter fun scan => (getScan detected scan).isNone
    if !(missingRequired.isEmpty) then UploadOutcome.missingScans missingRequired
    else UploadOutcome.proceed

/-- The component state touched by the upload phase of `handleUpload`:
`caseId`, `files` (`none` embeds the JS `null`), `detectedScans`, and the
`isUploading` flag. -/
structure UploadForm where
  caseId : String
  files : Option (List String)
  detectedScans : Detected
  isUploading : Bool
deriving DecidableEq, Repr

/-- Upload phase of `handleUpload` (ProcessingStatus.tsx lines 532-577),
entered after validation passes: `resp` is the outcome of the POST —
`Except.ok true` for `response.ok`, `Except.ok false` for a non-2xx
response (the thrown error lands in `catch`), `Except.error` for a network
failure or unparsable body.  Only the `response.ok` branch resets the form;
`finally` clears `isUploading` on every path. -/
def performUpload (form : UploadForm) (resp : Except Unit Bool) : UploadForm :=
  match resp with
  | Except.ok true =>
      { caseId := "", files := none,
        detectedScans := ⟨none, none, none, none⟩, isUploading := false }
  | Except.ok false => { form with isUploading := false }
  | Except.error _ => { form with isUploading := false }

/-- A list-endpoint summary (`CaseRecord` sans `results` in the source's
interface): `case_id`, `status` (one of the literals `'done' | 'error' |
'processing' | 'cancelled'`), and `date`. -/
structure CaseSummary where
  case_id : String
  status : String
  date : String
deriving DecidableEq, Repr

/-- The JSON payload of `GET /api/results/{caseId}`: a status-tagged object
whose remaining fields are the result columns displayed by CaseHistory. -/
structure DetailPayload where
  status : String
  error : Option String
  tumor_detection : String
  tumor_probability : String
  tumor_type : String
  glioma_grade : String
  scan_file : String
  segmentation_file : String
deriving DecidableEq, Repr

/-- A reconciled record as built by `fetchCases`: the spread summary plus
the optional `results` enrichment (`undefined` embeds as `none`). -/
structure CaseRecord where
  summary : CaseSummary
  results : Option DetailPayload
deriving DecidableEq, Repr

/-- One arm of the `Promise.all` map in `fetchCases` (unnamed source lines
116-131), instrumented with the list of case ids for which a detail fetch
was issued: a summary with status `'done'` fetches its detail and attaches
it as `results` only when the detail's own status is `'done'` (the `catch`
degrades it to the bare summary); any other summary status is returned
unchanged with no fetch. -/
def enrichCaseT (fetchResult : String → Except Unit DetailPayload)
    (c : CaseSummary) : CaseRecord × List String :=
  if c.status = "done" then
    match fetchResult c.case_id with
    | Except.ok resultData =>
        (⟨c, if resultData.status = "done" then some resultData else none⟩, [c.case_id])
    | Except.error _ => (⟨c, none⟩, [c.case_id])
  else (⟨c, none⟩, [])

/-- The merged record alone (first component of `enrichCaseT`). -/
def enrichCase (fetchResult : String → Except Unit DetailPayload)
    (c : CaseSummary) : CaseRecord :=
  (enrichCaseT fetchResult c).1

/-- The whole `Promise.all(data.cases.map(...))` join: the merged records in
summary order, together with the concatenated detail-fetch trace. -/
def reconcileT (summaries : List CaseSummary)
    (fetchResult : String → Except Unit DetailPayload) : List CaseRecord × List String :=
  match summaries with
  | [] => ([], [])
  | c :: rest =>
      let r := enrichCaseT fetchResult c
      let rs := reconcileT rest fetchResult
      (r.1 :: rs.1, r.2 ++ rs.2)

/-- The merged view produced by one reconciliation cycle. -/
def reconcile (summaries : List CaseSummary)
    (fetchResult : String → Except Unit DetailPayload) : List CaseRecord :=
  (reconcileT summaries fetchResult).1

/-- The CaseHistory component state touched by `fetchCases`. -/
structure HistoryState where
  cases : List CaseRecord
  filteredCases : List CaseRecord
  isLoading : Bool
  toasts : List String
deriving DecidableEq, Repr

/-- The toast description emitted when the whole cycle fails. -/
def fetchCasesErrorToast : String := "Failed to fetch case history"

/-- `fetchCases` (unnamed source lines 108-147) as a state transition:
`listResp` is the outcome of `fetch('/cases').json()` — `Except.ok (some
cs)` when the body has a truthy `cases` array, `Except.ok none` when the
body parses but has no `cases` field, `Except.error` when the fetch or the
parse throws.  Success replaces both case arrays wholesale; the `catch`
leaves them untouched and pushes the error toast; `finally` clears
`isLoading` on every path. -/
def fetchCases (st : HistoryState)
    (listResp : Except Unit (Option (List CaseSummary)))
    (fetchResult : String → Except Unit DetailPayload) : HistoryState :=
  match listResp with
  | Except.ok (some cs) =>
      let recs := reconcile cs fetchResult
      { st with cases := recs, filteredCases := recs, isLoading := false }
  | Except.ok none => { st with isLoading := false }
  | Except.error _ =>
      { st with isLoading := false, toasts := st.toasts ++ [fetchCasesErrorToast] }

lemma getScan_detectStep (d : Detected) (file : String) (l : ScanLabel) :
    getScan (detectStep d file) l =
      if classifyFile file = some l then some file else getScan d l := by
  cases hc : classifyFile file with
  | none => simp [detectStep, hc]
  | some l' => cases l' <;> cases l <;> simp [detectStep, getScan, hc]

lemma detectScanTypes_append_singleton (xs : List String) (n : String) :
    detectScanTypes (xs ++ [n]) = detectStep (detectScanTypes xs) n := by
  simp [detectScanTypes, List.foldl_append]

/-- Claim C1 (amended): for every filename the classifier assigns the label
of the first rule that matches in the source's precedence order T1 (contains
"t1" but neither "ce" nor "t10"), then T2 (contains "t2" but neither "t2*"
nor "t20"), then T1CE (contains "t1ce", "t1_ce", or "t1-ce"), then FLAIR
(contains "flair"), all case-insensitively; a filename matching no rule is
left unclassified and has no effect on the assignment; "patient_t1ce.nii.gz"
is assigned to T1CE, never to T1, and "scan_t10_post.nii" is unclassified. -/
theorem C1_classifier_first_match :
    (∀ name, classifyFile name = firstMatch codeRules (lowerChars name)) ∧
    (∀ files name, classifyFile name = none →
      detectScanTypes (files ++ [name]) = detectScanTypes files) ∧
    classifyFile "patient_t1ce.nii.gz" = some ScanLabel.T1CE ∧
    classifyFile "scan_t10_post.nii" = none := by
  refine ⟨fun name => rfl, ?_, by decide, by decide⟩
  intro files name h
  rw [detectScanTypes_append_singleton]
  simp [detectStep, h]

theorem C1_classifier_first_match_witness :
    detectScanTypes (["scan_t1.nii"] ++ ["notes.txt"]) = detectScanTypes ["scan_t1.nii"] ∧
    classifyFile "patient_t1ce.nii.gz" = some ScanLabel.T1CE :=
  ⟨C1_classifier_first_match.2.1 ["scan_t1.nii"] "notes.txt" (by decide),
   C1_classifier_first_match.2.2.1⟩

/-- Claim C1 is false as stated: the claimed precedence order (T1CE before
T2) disagrees with the code on "t1ce_t2.nii" — the code's else-if chain
assigns it to the T2 slot, while a T1CE-first rule order would assign T1CE. -/
theorem C1_counterexample :
    detectScanTypes ["t1ce_t2.nii"] = ⟨none, some "t1ce_t2.nii", none, none⟩ ∧
    firstMatch claimedRules (lowerChars "t1ce_t2.nii") = some ScanLabel.T1CE ∧
    ScanLabel.T2 ≠ ScanLabel.T1CE :=
  ⟨by decide, by decide, by decide⟩

/-- Claim C9: for every input filename list and label, the resulting
assignment maps the label to the last filename in input order that
classifies to it (later matches overwrite earlier ones, `getLast?` of the
matching sublist), and in particular no error is raised — `detectScanTypes`
is total. -/
theorem C9_last_match_wins (files : List String) (l : ScanLabel) :
    getScan (detectScanTypes files) l =
      (files.filter fun n => decide (classifyFile n = some l)).getLast? := by
  induction files using List.reverseRecOn with
  | nil => cases l <;> rfl
  | append_singleton xs n ih =>
      rw [detectScanTypes_append_singleton, getScan_detectStep]
      by_cases h : classifyFile n = some l
      · simp [h, List.filter_append, List.getLast?_append]
      · simp [h, List.filter_append, ih]

/-- Claim C4 (amended): the validation checks run in the order (1) case id
non-blank, (2) at least one file selected, (3) case id not already present
(per `validateCaseId`'s outcome), (4) required labels present, with an
early return at the first failing category; in particular, when the case id
is non-blank and already exists in the backend but no files are selected,
the reported blocking reason is the missing-files failure, not the
uniqueness failure. -/
theorem C4_check_order :
    ∀ (id : String) (files : List String) (d : Detected) (r : Except Unit Bool),
      (isBlank id = true → handleUpload id files d r = UploadOutcome.emptyId) ∧
      (isBlank id = false → files = [] →
        handleUpload id files d r = UploadOutcome.noFiles) ∧
      (isBlank id = false → files ≠ [] → validateCaseId r = false →
        handleUpload id files d r = UploadOutcome.duplicateId) := by
  intro id files d r
  refine ⟨fun h1 => by simp [handleUpload, h1], fun h1 h2 => by simp [handleUpload, h1, h2],
    fun h1 h2 h3 => ?_⟩
  have h2' : files.isEmpty = false := by simpa using h2
  simp [handleUpload, h1, h2', h3]

theorem C4_check_order_witness :
    handleUpload "CASE_001" [] ⟨none, none, none, none⟩ (Except.ok true) =
      UploadOutcome.noFiles :=
  (C4_check_order "CASE_001" [] ⟨none, none, none, none⟩ (Except.ok true)).2.1
    (by decide) rfl

/-- Claim C4 is false as stated: with a non-blank case id that the backend
reports as already existing and an empty file selection, the code reports
the missing-files failure (the file check runs before the uniqueness
check), not the uniqueness failure the claim requires. -/
theorem C4_counterexample :
    handleUpload "CASE_001" [] ⟨none, none, none, none⟩ (Except.ok true) =
        UploadOutcome.noFiles ∧
      UploadOutcome.noFiles ≠ UploadOutcome.duplicateId :=
  ⟨by decide, by decide⟩

/-- Claim C5: when the case-id existence query fails (network error or
unparsable response), `validateCaseId` returns true (the candidate id is
treated as available), and consequently the uniqueness check never blocks
the upload: `handleUpload` cannot report `duplicateId` in that situation. -/
theorem C5_fail_open :
    ∀ (id : String) (files : List String) (d : Detected),
      validateCaseId (Except.error ()) = true ∧
      handleUpload id files d (Except.error ()) ≠ UploadOutcome.duplicateId := by
  intro id files d
  refine ⟨rfl, ?_⟩
  by_cases h1 : isBlank id <;> by_cases h2 : files.isEmpty <;>
    simp [handleUpload, validateCaseId, h1, h2]
  split <;> simp

/-- A detected assignment with T1 present and T2 absent, for the required
scan gating. -/
def sampleT1Only : Detected := ⟨some "x_t1.nii", none, none, none⟩

/-- Claim C6: upload only proceeds when both required labels T1 and T2 are
assigned — whenever either required label is missing from the assignment,
"proceed" is refused; and for every assignment with T1 present and T2
absent, when the required-scan category is the one reporting (the earlier
checks pass), the reported blocking reason names exactly T2. -/
theorem C6_required_scans :
    ∀ (id : String) (files : List String) (d : Detected) (r : Except Unit Bool),
      (getScan d ScanLabel.T1 = none ∨ getScan d ScanLabel.T2 = none →
        handleUpload id files d r ≠ UploadOutcome.proceed) ∧
      (getScan d ScanLabel.T1 ≠ none → getScan d ScanLabel.T2 = none →
        isBlank id = false → files ≠ [] → validateCaseId r = true →
        handleUpload id files d r = UploadOutcome.missingScans [ScanLabel.T2]) := by
  intro id files d r
  constructor
  · intro hmiss
    have hne : requiredScans.filter (fun scan => (getScan d scan).isNone) ≠ [] := by
      rcases hmiss with h | h
      · have hm : ScanLabel.T1 ∈ requiredScans.filter (fun scan => (getScan d scan).isNone) :=
          List.mem_filter.mpr ⟨by simp [requiredScans], by simp [h]⟩
        exact List.ne_nil_of_mem hm
      · have hm : ScanLabel.T2 ∈ requiredScans.filter (fun scan => (getScan d scan).isNone) :=
          List.mem_filter.mpr ⟨by simp [requiredScans], by simp [h]⟩
        exact List.ne_nil_of_mem hm
    have hempty : (requiredScans.filter fun scan => (getScan d scan).isNone).isEmpty = false := by
      simpa using hne
    simp only [handleUpload]
    split
    · simp
    · split
      · simp
      · split
        · simp
        · simp [hempty]
  · intro hT1 hT2 hb hf hv
    have h1 : (getScan d ScanLabel.T1).isNone = false := by
      cases h : getScan d ScanLabel.T1 <;> simp_all
    have h2 : (getScan d ScanLabel.T2).isNone = true := by simp [hT2]
    have hmiss : requiredScans.filter (fun scan => (getScan d scan).isNone) = [ScanLabel.T2] := by
      simp [requiredScans, List.filter_cons, h1, h2]
    have hf' : files.isEmpty = false := by simpa using hf
    simp [handleUpload, hb, hf', hv, hmiss]

theorem C6_required_scans_witness :
    handleUpload "CASE_W" ["x_t1.nii"] sampleT1Only (Except.ok false) ≠
        UploadOutcome.proceed ∧
      handleUpload "CASE_W" ["x_t1.nii"] sampleT1Only (Except.ok false) =
        UploadOutcome.missingScans [ScanLabel.T2] ∧
      handleUpload "CASE_W" ["y_t2.nii"] ⟨none, some "y_t2.nii", none, none⟩
          (Except.ok false) ≠ UploadOutcome.proceed := by
  have h := C6_required_scans "CASE_W" ["x_t1.nii"] sampleT1Only (Except.ok false)
  have h' := C6_required_scans "CASE_W" ["y_t2.nii"]
    ⟨none, some "y_t2.nii", none, none⟩ (Except.ok false)
  exact ⟨h.1 (Or.inr (by decide)),
    h.2 (by decide) (by decide) (by decide) (by decide) (by decide),
    h'.1 (Or.inl (by decide))⟩

/-- Claim C10: if the upload request fails (non-2xx response or network
error), the form state — case id, selected files, and detected scan
assignment — is left unchanged and only the in-progress flag is reset; the
form is cleared (case id emptied, files and assignment discarded) only on a
successful upload. -/
theorem C10_form_preserved_on_failure :
    ∀ form : UploadForm,
      performUpload form (Except.error ()) = { form with isUploading := false } ∧
      performUpload form (Except.ok false) = { form with isUploading := false } ∧
      performUpload form (Except.ok true) =
        { caseId := "", files := none,
          detectedScans := ⟨none, none, none, none⟩, isUploading := false } :=
  fun _ => ⟨rfl, rfl, rfl⟩

lemma enrichCaseT_snd (f : String → Except Unit DetailPayload) (c : CaseSummary) :
    (enrichCaseT f c).2 = if c.status = "done" then [c.case_id] else [] := by
  by_cases h : c.status = "done"
  · cases hf : f c.case_id <;> simp [enrichCaseT, h, hf]
  · simp [enrichCaseT, h]

lemma reconcile_eq_map (summaries : List CaseSummary)
    (f : String → Except Unit DetailPayload) :
    reconcile summaries f = summaries.map (enrichCase f) := by
  induction summaries with
  | nil => rfl
  | cons c rest ih =>
      simp only [reconcile, reconcileT] at ih ⊢
      simp [enrichCase, ih]

/-- A summary the backend reports as still processing. -/
def sampleProcessingSummary : CaseSummary := ⟨"CASE_P", "processing", "2026-10-10"⟩

/-- A summary completed long ago (far outside any 24-hour window). -/
def sampleOldDoneSummary : CaseSummary := ⟨"CASE_OLD", "done", "2020-01-01"⟩

/-- A well-formed detail payload with status done. -/
def sampleDoneDetail : DetailPayload :=
  ⟨"done", none, "No Tumor", "95%", "N/A", "N/A", "scan.nii", "seg.nii"⟩

/-- Claim C3 (amended): in each reconciliation cycle a per-case detail
record is fetched for exactly those summaries whose status is `done`,
regardless of how old they are; summaries with any other status
(processing, error, cancelled) get no detail fetch.  The instrumented
trace is conservative: the merged records are exactly the per-summary
merge results. -/
theorem C3_detail_fetch_set :
    ∀ (summaries : List CaseSummary) (f : String → Except Unit DetailPayload),
      (reconcileT summaries f).2 =
        ((summaries.filter fun c => decide (c.status = "done")).map fun c => c.case_id) ∧
      (reconcileT summaries f).1 = summaries.map (enrichCase f) := by
  intro summaries f
  constructor
  · induction summaries with
    | nil => rfl
    | cons c rest ih =>
        by_cases h : c.status = "done" <;>
          simp [reconcileT, enrichCaseT_snd, h, List.filter_cons, ih]
  · exact reconcile_eq_map summaries f

/-- Claim C3 is false as stated: a `processing` summary gets no detail
fetch (the claim requires one), while a `done` summary created years
outside the 24-hour window still gets one (the claim forbids it) — the
fetch trace of the cycle is exactly `["CASE_OLD"]`. -/
theorem C3_counterexample :
    (reconcileT [sampleProcessingSummary, sampleOldDoneSummary]
        (fun _ => Except.ok sampleDoneDetail)).2 = ["CASE_OLD"] := by decide

/-- A summary whose list-level status is done. -/
def sampleDoneSummary : CaseSummary := ⟨"CASE_A", "done", "2024-01-01"⟩

/-- A detail payload reporting a backend error with message "X". -/
def sampleErrorDetail : DetailPayload := ⟨"error", some "X", "", "", "", "", "", ""⟩

/-- Claim C2 (amended): the enrichment of a merged record is selected by
the detail payload's own status, not the summary's: the detail payload is
attached as `results` exactly when its own status is `done`; for a summary
with status done whose detail fetch returns any other status (such as
`{status: "error", error: "X"}`), the merged record is the bare summary —
it carries no result, and no error message either (the merged record has
no error-message enrichment at all). -/
theorem C2_detail_status_merge :
    ∀ (c : CaseSummary) (f : String → Except Unit DetailPayload) (dp : DetailPayload),
      c.status = "done" → f c.case_id = Except.ok dp →
      ((dp.status = "done" → enrichCase f c = ⟨c, some dp⟩) ∧
       (dp.status ≠ "done" → enrichCase f c = ⟨c, none⟩)) := by
  intro c f dp hc hf
  constructor
  · intro hd
    simp [enrichCase, enrichCaseT, hc, hf, hd]
  · intro hd
    simp [enrichCase, enrichCaseT, hc, hf, hd]

theorem C2_detail_status_merge_witness :
    enrichCase (fun _ => Except.ok sampleErrorDetail) sampleDoneSummary =
      ⟨sampleDoneSummary, none⟩ :=
  (C2_detail_status_merge sampleDoneSummary (fun _ => Except.ok sampleErrorDetail)
    sampleErrorDetail rfl rfl).2 (by decide)

/-- Claim C2 is false as stated: for a done summary whose detail fetch
returns `{status: "error", error: "X"}`, the merged view is the bare
summary with no enrichment — the code never attaches an error message (its
record type has no such field), contrary to the claimed `errorMessage: "X"`. -/
theorem C2_counterexample :
    reconcile [sampleDoneSummary] (fun _ => Except.ok sampleErrorDetail) =
      [⟨sampleDoneSummary, none⟩] := by decide

/-- Claim C7: within one reconciliation cycle, a failing detail fetch
degrades only its own record to the bare summary: if case A's detail fetch
succeeds with a done payload while case B's fails, the merged view contains
the enriched record for A and the bare-summary record for B, and the cycle
is not aborted — every summary yields exactly one output record (and the
embedding is a total function, so no exception escapes). -/
theorem C7_partial_isolation :
    ∀ (summaries : List CaseSummary) (f : String → Except Unit DetailPayload)
      (a b : CaseSummary) (d : DetailPayload),
      a ∈ summaries → b ∈ summaries →
      a.status = "done" → b.status = "done" →
      f a.case_id = Except.ok d → d.status = "done" →
      f b.case_id = Except.error () →
      (⟨a, some d⟩ : CaseRecord) ∈ reconcile summaries f ∧
      (⟨b, none⟩ : CaseRecord) ∈ reconcile summaries f ∧
      (reconcile summaries f).length = summaries.length := by
  intro summaries f a b d ha hb hsa hsb hfa hd hfb
  have hra : enrichCase f a = ⟨a, some d⟩ := by
    simp [enrichCase, enrichCaseT, hsa, hfa, hd]
  have hrb : enrichCase f b = ⟨b, none⟩ := by
    simp [enrichCase, enrichCaseT, hsb, hfb]
  rw [reconcile_eq_map]
  refine ⟨hra ▸ List.mem_map_of_mem _ ha, hrb ▸ List.mem_map_of_mem _ hb, by simp⟩

/-- Two done summaries whose detail fetches will diverge. -/
def isolationSummaries : List CaseSummary :=
  [⟨"CASE_A", "done", "2024-01-02"⟩, ⟨"CASE_B", "done", "2024-01-03"⟩]

/-- A fetcher that succeeds for CASE_A and fails for everything else. -/
def isolationFetch : String → Except Unit DetailPayload :=
  fun id => if id = "CASE_A" then Except.ok sampleDoneDetail else Except.error ()

theorem C7_partial_isolation_witness :
    (⟨⟨"CASE_A", "done", "2024-01-02"⟩, some sampleDoneDetail⟩ : CaseRecord) ∈
        reconcile isolationSummaries isolationFetch ∧
      (⟨⟨"CASE_B", "done", "2024-01-03"⟩, none⟩ : CaseRecord) ∈
        reconcile isolationSummaries isolationFetch ∧
      (reconcile isolationSummaries isolationFetch).length =
        isolationSummaries.length :=
  C7_partial_isolation isolationSummaries isolationFetch
    ⟨"CASE_A", "done", "2024-01-02"⟩ ⟨"CASE_B", "done", "2024-01-03"⟩
    sampleDoneDetail (by decide) (by decide) rfl rfl
    (by simp [isolationFetch]) rfl (by simp [isolationFetch])

/-- Claim C8 (amended): every execution of the reconciliation cycle
completes and clears the loading indicator (`fetchCases` is a total
function whose result always has `isLoading = false`), and the previous
view (`cases` and `filteredCases`) is retained unchanged on any whole-cycle
failure; a user-visible error notification is appended only when the list
fetch or its JSON parse throws — a response whose body parses without a
`cases` field (the code never checks `response.ok`, so this includes a
non-2xx JSON error body) retains the view silently, emitting no
notification and changing nothing but the loading flag. -/
theorem C8_cycle_failure :
    ∀ (st : HistoryState) (resp : Except Unit (Option (List CaseSummary)))
      (f : String → Except Unit DetailPayload),
      (fetchCases st resp f).isLoading = false ∧
      (fetchCases st (Except.error ()) f).cases = st.cases ∧
      (fetchCases st (Except.error ()) f).filteredCases = st.filteredCases ∧
      (fetchCases st (Except.error ()) f).toasts = st.toasts ++ [fetchCasesErrorToast] ∧
      fetchCases st (Except.ok none) f = { st with isLoading := false } := by
  intro st resp f
  refine ⟨?_, rfl, rfl, rfl, rfl⟩
  cases resp with
  | ok o => cases o <;> rfl
  | error e => rfl

/-- A CaseHistory state mid-cycle: one prior record, loading in progress,
no toasts yet. -/
def sampleHistoryState : HistoryState :=
  ⟨[⟨sampleDoneSummary, none⟩], [⟨sampleDoneSummary, none⟩], true, []⟩

/-- Claim C8 is false as stated: a whole-cycle failure in which the list
response's body parses but carries no `cases` array (the code never checks
`response.ok`, so a non-2xx JSON error body takes this path) emits no
user-visible notification — the toast list stays empty — even though the
cycle produced no view; only the thrown fetch/parse path notifies. -/
theorem C8_counterexample :
    (fetchCases sampleHistoryState (Except.ok none) (fun _ => Except.error ())).toasts = [] ∧
      (fetchCases sampleHistoryState (Except.ok none) (fun _ => Except.error ())).cases =
        sampleHistoryState.cases ∧
      (fetchCases sampleHistoryState (Except.ok none) (fun _ => Except.error ())).isLoading =
        false :=
  ⟨rfl, rfl, rfl⟩
